import Mathlib

/-!
Verification of the MiniBoxDCDC binding (`src/DcDcConverter.py`).

The repository is a thin ctypes binding over the vendor DLL `DCDCUsbLib`.
We embed the binding shallowly:

* `VendorCall` enumerates the DLL entry points with their (coerced) arguments;
  ctype-unsigned arguments (`c_uint`, `c_ubyte`) are `Nat`, `c_float` arguments
  and results are carried as opaque bit-pattern tokens (`Nat`), buffer pointers
  (`c_char_p`) are carried as buffer identifiers (`Nat`).
* `Ev` is an observable event of a run: a DLL call or a `time.sleep` call.
* `Dll` is the oracle giving the vendor library's response to each call.
* `Method` enumerates the exposed operations of class `DcDcConverter` other
  than the constructor, and `methodRun` gives each method's semantics (trace of
  emitted events, returned Python value), translated method by method from the
  source.
* The constructor `DcDcConverter.__init__` is embedded as `initRun` over an
  environment `InitEnv` that supplies the open result, the per-poll
  `dcdcGetConnected` results, the `time.monotonic` readings (integer-valued,
  faithful to a monotonic clock for the ordering facts the claims need), and
  the outcome of UTF-8-decoding the device path.
-/

namespace MiniBoxDCDC

/-- A Python exception value as raisable by the modelled code.  `exception` is
the bare built-in `Exception` (raised with no arguments, as in the source's
`raise Exception`); `unicodeDecodeError` models the error raised by
`bytes.decode('UTF-8')` on invalid input.  Both derive from Python's
`Exception`, hence both are caught by `except Exception as err`. -/
inductive PyExc where
  | exception
  | unicodeDecodeError
  deriving DecidableEq, Repr

/-- The vendor DLL entry points bound by the source, with their declared
argument types (unsigned integers as `Nat`, floats as bit-pattern tokens,
`c_char_p` buffers as buffer identifiers). -/
inductive VendorCall where
  | dcdcOpenDevice (timer : Nat)
  | dcdcOpenDeviceByCnt (devcount timer : Nat)
  | dcdcGetDevicePath (path : Nat)
  | dcdcCloseDevice
  | dcdcGetConnected
  | dcdcGetTimeCfg
  | dcdcGetVoltageCfg
  | dcdcGetMode
  | dcdcGetState
  | dcdcGetVin
  | dcdcGetVIgn
  | dcdcGetVOut
  | dcdcGetEnabledPowerSwitch
  | dcdcGetEnabledOutput
  | dcdcGetEnabledAuxVOut
  | dcdcGetFlagsStatus1
  | dcdcGetFlagsStatus2
  | dcdcGetFlagsVoltage
  | dcdcGetFlagsTimer
  | dcdcGetFlashPointer
  | dcdcGetTimerWait
  | dcdcGetTimerVout
  | dcdcGetTimerVAux
  | dcdcGetTimerPwSwitch
  | dcdcGetTimerOffDelay
  | dcdcGetTimerHardOff
  | dcdcGetVersionMajor
  | dcdcGetVersionMinor
  | dcdcSetEnabledAuxVOut (onOff : Nat)
  | dcdcSetEnabledPowerSwitch (onOff : Nat)
  | dcdcSetEnabledOutput (onOff : Nat)
  | dcdcIncDecVOutVolatile (inc : Nat)
  | dcdcSetVOutVolatile (vout : Nat)
  | dcdcLoadFlashValues
  | dcdcGetLoadState
  | dcdcGetMaxVariableCnt
  | dcdcGetVariableData (cnt name value unit comment : Nat)
  | dcdcSetVariableData (cnt value : Nat)
  | dcdcSaveFlashValues
  deriving DecidableEq, Repr

/-- An observable event of a run of the binding: a call into the vendor DLL or
a call to `time.sleep` (argument in seconds). -/
inductive Ev where
  | vcall (c : VendorCall)
  | sleepFor (seconds : Nat)
  deriving DecidableEq, Repr

/-- A Python value as returned by the wrapper methods: `None`, an `int` (all
DLL integer results are unsigned), a `float` carried as a bit-pattern token,
or a `str`. -/
inductive PyVal where
  | none
  | int (n : Nat)
  | float (bits : Nat)
  | str (s : String)
  deriving DecidableEq, Repr

/-- Oracle for the vendor DLL: the value each entry point returns when called
(void entry points have no field; the wrappers return `None` for them).
Fields are named after the DLL symbols. -/
structure Dll where
  dcdcOpenDevice : Nat → Nat
  dcdcOpenDeviceByCnt : Nat → Nat → Nat
  dcdcGetConnected : Nat
  dcdcGetTimeCfg : Nat
  dcdcGetVoltageCfg : Nat
  dcdcGetMode : Nat
  dcdcGetState : Nat
  dcdcGetVin : Nat
  dcdcGetVIgn : Nat
  dcdcGetVOut : Nat
  dcdcGetEnabledPowerSwitch : Nat
  dcdcGetEnabledOutput : Nat
  dcdcGetEnabledAuxVOut : Nat
  dcdcGetFlagsStatus1 : Nat
  dcdcGetFlagsStatus2 : Nat
  dcdcGetFlagsVoltage : Nat
  dcdcGetFlagsTimer : Nat
  dcdcGetFlashPointer : Nat
  dcdcGetTimerWait : Nat
  dcdcGetTimerVout : Nat
  dcdcGetTimerVAux : Nat
  dcdcGetTimerPwSwitch : Nat
  dcdcGetTimerOffDelay : Nat
  dcdcGetTimerHardOff : Nat
  dcdcGetVersionMajor : Nat
  dcdcGetVersionMinor : Nat
  dcdcGetLoadState : Nat
  dcdcGetMaxVariableCnt : Nat
  dcdcGetVariableData : Nat → Nat → Nat → Nat → Nat → Nat
  dcdcSetVariableData : Nat → Nat → Nat

/-- The exposed operations of class `DcDcConverter` other than the
constructor, named as in the source. -/
inductive Method where
  | OpenDevice (timer : Nat)
  | OpenDeviceByCnt (devcount timer : Nat)
  | GetDevicePath (path : Nat)
  | CloseDevice
  | GetConnected
  | GetTimeCfg
  | GetVoltageCfg
  | GetMode
  | GetState
  | GetVin
  | GetVIgn
  | GetVOut
  | GetEnabledPowerSwitch
  | GetEnabledOutput
  | GetEnabledAuxVOut
  | GetFlagsStatus1
  | GetFlagsStatus2
  | GetFlagsVoltage
  | GetFlagsTimer
  | GetFlashPointer
  | GetTimerWait
  | GetTimerVout
  | GetTimerVAux
  | GetTimerPwSwitch
  | GetTimerOffDelay
  | GetTimerHardOff
  | GetVersionMajor
  | GetVersionMinor
  | GetVersion
  | SetEnabledAuxVOut (onOff : Nat)
  | SetEnabledPowerSwitch (onOff : Nat)
  | SetEnabledOutput (onOff : Nat)
  | IncDecVOutVolatile (inc : Nat)
  | SetVOutVolatile (vout : Nat)
  | LoadFlashValues
  | GetLoadState
  | GetMaxVariableCnt
  | GetVariableData (cnt name value unit comment : Nat)
  | SetVariableData (cnt value : Nat)
  | SaveFlashValues
  deriving DecidableEq, Repr

/-- Semantics of each exposed method, translated method by method from the
source: the list of events it emits and the Python value it returns.
`GetVersion` mirrors lines 416-423: it reads the major and minor version via
the two version getters and composes `str(major) + '.' + str(minor)`
(`toString` on `Nat` is Python's decimal `str` for non-negative ints).
Every other method is the single DLL call appearing in its body. -/
def methodRun (d : Dll) : Method → List Ev × PyVal
  | .OpenDevice timer =>
      ([.vcall (.dcdcOpenDevice timer)], .int (d.dcdcOpenDevice timer))
  | .OpenDeviceByCnt devcount timer =>
      ([.vcall (.dcdcOpenDeviceByCnt devcount timer)],
        .int (d.dcdcOpenDeviceByCnt devcount timer))
  | .GetDevicePath path => ([.vcall (.dcdcGetDevicePath path)], .none)
  | .CloseDevice => ([.vcall .dcdcCloseDevice], .none)
  | .GetConnected => ([.vcall .dcdcGetConnected], .int d.dcdcGetConnected)
  | .GetTimeCfg => ([.vcall .dcdcGetTimeCfg], .int d.dcdcGetTimeCfg)
  | .GetVoltageCfg => ([.vcall .dcdcGetVoltageCfg], .int d.dcdcGetVoltageCfg)
  | .GetMode => ([.vcall .dcdcGetMode], .int d.dcdcGetMode)
  | .GetState => ([.vcall .dcdcGetState], .int d.dcdcGetState)
  | .GetVin => ([.vcall .dcdcGetVin], .float d.dcdcGetVin)
  | .GetVIgn => ([.vcall .dcdcGetVIgn], .float d.dcdcGetVIgn)
  | .GetVOut => ([.vcall .dcdcGetVOut], .float d.dcdcGetVOut)
  | .GetEnabledPowerSwitch =>
      ([.vcall .dcdcGetEnabledPowerSwitch], .int d.dcdcGetEnabledPowerSwitch)
  | .GetEnabledOutput =>
      ([.vcall .dcdcGetEnabledOutput], .int d.dcdcGetEnabledOutput)
  | .GetEnabledAuxVOut =>
      ([.vcall .dcdcGetEnabledAuxVOut], .int d.dcdcGetEnabledAuxVOut)
  | .GetFlagsStatus1 =>
      ([.vcall .dcdcGetFlagsStatus1], .int d.dcdcGetFlagsStatus1)
  | .GetFlagsStatus2 =>
      ([.vcall .dcdcGetFlagsStatus2], .int d.dcdcGetFlagsStatus2)
  | .GetFlagsVoltage =>
      ([.vcall .dcdcGetFlagsVoltage], .int d.dcdcGetFlagsVoltage)
  | .GetFlagsTimer => ([.vcall .dcdcGetFlagsTimer], .int d.dcdcGetFlagsTimer)
  | .GetFlashPointer =>
      ([.vcall .dcdcGetFlashPointer], .int d.dcdcGetFlashPointer)
  | .GetTimerWait => ([.vcall .dcdcGetTimerWait], .int d.dcdcGetTimerWait)
  | .GetTimerVout => ([.vcall .dcdcGetTimerVout], .int d.dcdcGetTimerVout)
  | .GetTimerVAux => ([.vcall .dcdcGetTimerVAux], .int d.dcdcGetTimerVAux)
  | .GetTimerPwSwitch =>
      ([.vcall .dcdcGetTimerPwSwitch], .int d.dcdcGetTimerPwSwitch)
  | .GetTimerOffDelay =>
      ([.vcall .dcdcGetTimerOffDelay], .int d.dcdcGetTimerOffDelay)
  | .GetTimerHardOff =>
      ([.vcall .dcdcGetTimerHardOff], .int d.dcdcGetTimerHardOff)
  | .GetVersionMajor =>
      ([.vcall .dcdcGetVersionMajor], .int d.dcdcGetVersionMajor)
  | .GetVersionMinor =>
      ([.vcall .dcdcGetVersionMinor], .int d.dcdcGetVersionMinor)
  | .GetVersion =>
      let fw_ver_major := d.dcdcGetVersionMajor
      let fw_ver_minor := d.dcdcGetVersionMinor
      ([.vcall .dcdcGetVersionMajor, .vcall .dcdcGetVersionMinor],
        .str (toString fw_ver_major ++ "." ++ toString fw_ver_minor))
  | .SetEnabledAuxVOut onOff => ([.vcall (.dcdcSetEnabledAuxVOut onOff)], .none)
  | .SetEnabledPowerSwitch onOff =>
      ([.vcall (.dcdcSetEnabledPowerSwitch onOff)], .none)
  | .SetEnabledOutput onOff => ([.vcall (.dcdcSetEnabledOutput onOff)], .none)
  | .IncDecVOutVolatile inc => ([.vcall (.dcdcIncDecVOutVolatile inc)], .none)
  | .SetVOutVolatile vout => ([.vcall (.dcdcSetVOutVolatile vout)], .none)
  | .LoadFlashValues => ([.vcall .dcdcLoadFlashValues], .none)
  | .GetLoadState => ([.vcall .dcdcGetLoadState], .int d.dcdcGetLoadState)
  | .GetMaxVariableCnt =>
      ([.vcall .dcdcGetMaxVariableCnt], .int d.dcdcGetMaxVariableCnt)
  | .GetVariableData cnt name value unit comment =>
      ([.vcall (.dcdcGetVariableData cnt name value unit comment)],
        .int (d.dcdcGetVariableData cnt name value unit comment))
  | .SetVariableData cnt value =>
      ([.vcall (.dcdcSetVariableData cnt value)],
        .int (d.dcdcSetVariableData cnt value))
  | .SaveFlashValues => ([.vcall .dcdcSaveFlashValues], .none)

/-- Reference model (from the spec's wording, for the pass-through claim):
the vendor DLL call that bears the same name and the same arguments as a
given exposed method.  `GetVersion` has no single corresponding call; the
pass-through claim excludes it, and its image here is irrelevant. -/
def vendorCallOfMethod : Method → VendorCall
  | .OpenDevice timer => .dcdcOpenDevice timer
  | .OpenDeviceByCnt devcount timer => .dcdcOpenDeviceByCnt devcount timer
  | .GetDevicePath path => .dcdcGetDevicePath path
  | .CloseDevice => .dcdcCloseDevice
  | .GetConnected => .dcdcGetConnected
  | .GetTimeCfg => .dcdcGetTimeCfg
  | .GetVoltageCfg => .dcdcGetVoltageCfg
  | .GetMode => .dcdcGetMode
  | .GetState => .dcdcGetState
  | .GetVin => .dcdcGetVin
  | .GetVIgn => .dcdcGetVIgn
  | .GetVOut => .dcdcGetVOut
  | .GetEnabledPowerSwitch => .dcdcGetEnabledPowerSwitch
  | .GetEnabledOutput => .dcdcGetEnabledOutput
  | .GetEnabledAuxVOut => .dcdcGetEnabledAuxVOut
  | .GetFlagsStatus1 => .dcdcGetFlagsStatus1
  | .GetFlagsStatus2 => .dcdcGetFlagsStatus2
  | .GetFlagsVoltage => .dcdcGetFlagsVoltage
  | .GetFlagsTimer => .dcdcGetFlagsTimer
  | .GetFlashPointer => .dcdcGetFlashPointer
  | .GetTimerWait => .dcdcGetTimerWait
  | .GetTimerVout => .dcdcGetTimerVout
  | .GetTimerVAux => .dcdcGetTimerVAux
  | .GetTimerPwSwitch => .dcdcGetTimerPwSwitch
  | .GetTimerOffDelay => .dcdcGetTimerOffDelay
  | .GetTimerHardOff => .dcdcGetTimerHardOff
  | .GetVersionMajor => .dcdcGetVersionMajor
  | .GetVersionMinor => .dcdcGetVersionMinor
  | .GetVersion => .dcdcGetVersionMajor
  | .SetEnabledAuxVOut onOff => .dcdcSetEnabledAuxVOut onOff
  | .SetEnabledPowerSwitch onOff => .dcdcSetEnabledPowerSwitch onOff
  | .SetEnabledOutput onOff => .dcdcSetEnabledOutput onOff
  | .IncDecVOutVolatile inc => .dcdcIncDecVOutVolatile inc
  | .SetVOutVolatile vout => .dcdcSetVOutVolatile vout
  | .LoadFlashValues => .dcdcLoadFlashValues
  | .GetLoadState => .dcdcGetLoadState
  | .GetMaxVariableCnt => .dcdcGetMaxVariableCnt
  | .GetVariableData cnt name value unit comment =>
      .dcdcGetVariableData cnt name value unit comment
  | .SetVariableData cnt value => .dcdcSetVariableData cnt value
  | .SaveFlashValues => .dcdcSaveFlashValues

/-- Reference model (from the spec's wording, for the pass-through claim):
the Python value the vendor DLL returns for a given call, per the declared
restypes (lines 102-144 of the source): `c_ubyte`/`c_uint` results are ints,
`c_float` results are floats, `restype = None` entry points return `None`. -/
def vendorReturn (d : Dll) : VendorCall → PyVal
  | .dcdcOpenDevice timer => .int (d.dcdcOpenDevice timer)
  | .dcdcOpenDeviceByCnt devcount timer =>
      .int (d.dcdcOpenDeviceByCnt devcount timer)
  | .dcdcGetDevicePath _ => .none
  | .dcdcCloseDevice => .none
  | .dcdcGetConnected => .int d.dcdcGetConnected
  | .dcdcGetTimeCfg => .int d.dcdcGetTimeCfg
  | .dcdcGetVoltageCfg => .int d.dcdcGetVoltageCfg
  | .dcdcGetMode => .int d.dcdcGetMode
  | .dcdcGetState => .int d.dcdcGetState
  | .dcdcGetVin => .float d.dcdcGetVin
  | .dcdcGetVIgn => .float d.dcdcGetVIgn
  | .dcdcGetVOut => .float d.dcdcGetVOut
  | .dcdcGetEnabledPowerSwitch => .int d.dcdcGetEnabledPowerSwitch
  | .dcdcGetEnabledOutput => .int d.dcdcGetEnabledOutput
  | .dcdcGetEnabledAuxVOut => .int d.dcdcGetEnabledAuxVOut
  | .dcdcGetFlagsStatus1 => .int d.dcdcGetFlagsStatus1
  | .dcdcGetFlagsStatus2 => .int d.dcdcGetFlagsStatus2
  | .dcdcGetFlagsVoltage => .int d.dcdcGetFlagsVoltage
  | .dcdcGetFlagsTimer => .int d.dcdcGetFlagsTimer
  | .dcdcGetFlashPointer => .int d.dcdcGetFlashPointer
  | .dcdcGetTimerWait => .int d.dcdcGetTimerWait
  | .dcdcGetTimerVout => .int d.dcdcGetTimerVout
  | .dcdcGetTimerVAux => .int d.dcdcGetTimerVAux
  | .dcdcGetTimerPwSwitch => .int d.dcdcGetTimerPwSwitch
  | .dcdcGetTimerOffDelay => .int d.dcdcGetTimerOffDelay
  | .dcdcGetTimerHardOff => .int d.dcdcGetTimerHardOff
  | .dcdcGetVersionMajor => .int d.dcdcGetVersionMajor
  | .dcdcGetVersionMinor => .int d.dcdcGetVersionMinor
  | .dcdcSetEnabledAuxVOut _ => .none
  | .dcdcSetEnabledPowerSwitch _ => .none
  | .dcdcSetEnabledOutput _ => .none
  | .dcdcIncDecVOutVolatile _ => .none
  | .dcdcSetVOutVolatile _ => .none
  | .dcdcLoadFlashValues => .none
  | .dcdcGetLoadState => .int d.dcdcGetLoadState
  | .dcdcGetMaxVariableCnt => .int d.dcdcGetMaxVariableCnt
  | .dcdcGetVariableData cnt name value unit comment =>
      .int (d.dcdcGetVariableData cnt name value unit comment)
  | .dcdcSetVariableData cnt value => .int (d.dcdcSetVariableData cnt value)
  | .dcdcSaveFlashValues => .none

/-- Environment of one run of `DcDcConverter.__init__` (lines 38-89):
constructor arguments plus the oracle for everything external the body
consumes.  `openResult` is what `dcdcOpenDeviceByCnt` returns; `conn k` is
what the k-th `dcdcGetConnected` call in the retry loop returns; `t0` is the
`monotonic()` reading taken when the deadline is computed (line 66) and
`clock k` the reading at the k-th while-condition check (line 68); `decodeErr`
is the outcome of `dev_path.value.decode('UTF-8')` (line 81): `none` means it
succeeds, `some exc` means it raises `exc`. -/
structure InitEnv where
  devcount : Nat
  timer : Nat
  connectiontimeout : Int
  openResult : Nat
  conn : Nat → Nat
  t0 : Int
  clock : Nat → Int
  decodeErr : Option PyExc

/-- The `while monotonic() < timeout` retry loop (lines 68-73), with the
wall-clock readings supplied by `clock` and the deadline precomputed.
`k` is the index of the next condition check / poll and `connection_status`
the current value of the loop variable.  The loop is wall-clock bounded in
the source; `fuel` is an iteration bound that callers instantiate large
enough to cover every instant before the deadline (`initRun` passes
`connectiontimeout.toNat + 1`, which suffices for any strictly increasing
integer clock starting at or after `t0`).  Returns the final
`connection_status` and the total number of `dcdcGetConnected` calls made. -/
def pollLoop (conn : Nat → Nat) (clock : Nat → Int) (deadline : Int) :
    Nat → Nat → Nat → Nat × Nat
  | 0, k, connection_status => (connection_status, k)
  | fuel + 1, k, connection_status =>
      if clock k < deadline then
        let s := conn k
        if s = 1 then (s, k + 1)
        else pollLoop conn clock deadline fuel (k + 1) s
      else (connection_status, k)

/-- The connection status reached by the constructor before the `try` block
(lines 60-73), together with the number of `dcdcGetConnected` polls made:
the open result if it is 1, the poll-loop outcome if it is 0 (starting from
`connection_status = 0` with deadline `monotonic() + connectiontimeout`),
and the open result unchanged otherwise (neither branch of the
`if`/`elif` fires). -/
def connStatus (e : InitEnv) : Nat × Nat :=
  if e.openResult = 1 then (e.openResult, 0)
  else if e.openResult = 0 then
    pollLoop e.conn e.clock (e.t0 + e.connectiontimeout)
      (e.connectiontimeout.toNat + 1) 0 0
  else (e.openResult, 0)

/-- One run of `DcDcConverter.__init__` (lines 38-89): the trace of events and
the outcome (`ok` when the constructor returns, `error exc` when it raises
`exc`).  The body opens by count with `timer * 1000` (the ms refresh period),
resolves the connection status (possibly polling), then runs the `try` block:
if connected it reads the device path, decodes it, and sleeps `timer`
seconds; otherwise it raises a bare `Exception`.  Any exception in the `try`
block is caught, `dcdcCloseDevice` is called once, and the same exception is
re-raised. -/
def initRun (e : InitEnv) : List Ev × Except PyExc Unit :=
  let openEv := Ev.vcall (.dcdcOpenDeviceByCnt e.devcount (e.timer * 1000))
  let sp := connStatus e
  let pollTr := List.replicate sp.2 (Ev.vcall .dcdcGetConnected)
  if sp.1 = 1 then
    match e.decodeErr with
    | some exc =>
        (openEv :: pollTr ++
          [Ev.vcall (.dcdcGetDevicePath 0), Ev.vcall .dcdcCloseDevice],
          .error exc)
    | none =>
        (openEv :: pollTr ++
          [Ev.vcall (.dcdcGetDevicePath 0), Ev.sleepFor e.timer], .ok ())
  else
    (openEv :: pollTr ++ [Ev.vcall .dcdcCloseDevice], .error .exception)

/-- Whether an event is a `dcdcCloseDevice` call. -/
def isCloseDevice : Ev → Bool
  | .vcall .dcdcCloseDevice => true
  | _ => false

/-- Whether an event is a `dcdcGetConnected` call. -/
def isGetConnected : Ev → Bool
  | .vcall .dcdcGetConnected => true
  | _ => false

/-- Whether an event is a `dcdcSetVariableData` call (a variable write). -/
def isSetVariableData : Ev → Bool
  | .vcall (.dcdcSetVariableData _ _) => true
  | _ => false

/-- Number of `dcdcCloseDevice` calls in a trace. -/
def countClose (tr : List Ev) : Nat := tr.countP isCloseDevice

/-- Number of `dcdcGetConnected` calls in a trace. -/
def countGetConnected (tr : List Ev) : Nat := tr.countP isGetConnected

/-- Number of `dcdcSetVariableData` calls (variable writes) in a trace. -/
def countSetVariableData (tr : List Ev) : Nat := tr.countP isSetVariableData

/-- A concrete stub DLL: every entry point reports success (1). -/
def dllArb : Dll where
  dcdcOpenDevice := fun _ => 1
  dcdcOpenDeviceByCnt := fun _ _ => 1
  dcdcGetConnected := 1
  dcdcGetTimeCfg := 1
  dcdcGetVoltageCfg := 1
  dcdcGetMode := 1
  dcdcGetState := 1
  dcdcGetVin := 1
  dcdcGetVIgn := 1
  dcdcGetVOut := 1
  dcdcGetEnabledPowerSwitch := 1
  dcdcGetEnabledOutput := 1
  dcdcGetEnabledAuxVOut := 1
  dcdcGetFlagsStatus1 := 1
  dcdcGetFlagsStatus2 := 1
  dcdcGetFlagsVoltage := 1
  dcdcGetFlagsTimer := 1
  dcdcGetFlashPointer := 1
  dcdcGetTimerWait := 1
  dcdcGetTimerVout := 1
  dcdcGetTimerVAux := 1
  dcdcGetTimerPwSwitch := 1
  dcdcGetTimerOffDelay := 1
  dcdcGetTimerHardOff := 1
  dcdcGetVersionMajor := 1
  dcdcGetVersionMinor := 1
  dcdcGetLoadState := 1
  dcdcGetMaxVariableCnt := 1
  dcdcGetVariableData := fun _ _ _ _ _ => 1
  dcdcSetVariableData := fun _ _ => 1

/-- A concrete stub DLL reporting firmware version major 2, minor 7. -/
def dll27 : Dll :=
  { dllArb with dcdcGetVersionMajor := 2, dcdcGetVersionMinor := 7 }

/-- Concrete constructor environment: open fails and every poll reports
not-connected; the clock ticks one unit per check starting at 0, deadline 5. -/
def envTimeout : InitEnv where
  devcount := 1
  timer := 1
  connectiontimeout := 5
  openResult := 0
  conn := fun _ => 0
  t0 := 0
  clock := fun k => (k : Int)
  decodeErr := Option.none

/-- Concrete constructor environment: open reports immediate success. -/
def envOpen : InitEnv := { envTimeout with openResult := 1 }

/-- Concrete constructor environment: open fails, the third poll (index 2)
reports connected, well before the deadline. -/
def envRetry : InitEnv :=
  { envTimeout with conn := fun k => if k = 2 then 1 else 0 }

/-- Concrete constructor environment: open succeeds but decoding the device
path raises a `UnicodeDecodeError`. -/
def envDecodeFail : InitEnv :=
  { envOpen with decodeErr := some PyExc.unicodeDecodeError }

/-- Concrete constructor environment: open fails and the configured
connection timeout is negative. -/
def envNegTimeout : InitEnv := { envTimeout with connectiontimeout := -1 }

example : initRun envTimeout =
    (Ev.vcall (.dcdcOpenDeviceByCnt 1 1000) ::
      List.replicate 5 (Ev.vcall .dcdcGetConnected) ++
      [Ev.vcall .dcdcCloseDevice], .error .exception) := rfl

example : initRun envOpen =
    ([Ev.vcall (.dcdcOpenDeviceByCnt 1 1000), Ev.vcall (.dcdcGetDevicePath 0),
      Ev.sleepFor 1], .ok ()) := rfl

example : initRun envRetry =
    (Ev.vcall (.dcdcOpenDeviceByCnt 1 1000) ::
      List.replicate 3 (Ev.vcall .dcdcGetConnected) ++
      [Ev.vcall (.dcdcGetDevicePath 0), Ev.sleepFor 1], .ok ()) := rfl

example : initRun envNegTimeout =
    ([Ev.vcall (.dcdcOpenDeviceByCnt 1 1000), Ev.vcall .dcdcCloseDevice],
      .error .exception) := rfl

example : initRun envDecodeFail =
    ([Ev.vcall (.dcdcOpenDeviceByCnt 1 1000), Ev.vcall (.dcdcGetDevicePath 0),
      Ev.vcall .dcdcCloseDevice], .error .unicodeDecodeError) := rfl

example : (methodRun dll27 .GetVersion).2 = PyVal.str "2.7" := by decide

/-- If no poll made before the deadline reports connected, the loop can never
end with `connection_status = 1` (whatever the iteration bound). -/
lemma pollLoop_ne_one (conn : Nat → Nat) (clock : Nat → Int) (deadline : Int)
    (h : ∀ j, clock j < deadline → conn j ≠ 1) :
    ∀ fuel k s, s ≠ 1 → (pollLoop conn clock deadline fuel k s).1 ≠ 1 := by
  intro fuel
  induction fuel with
  | zero => intro k s hs; simpa [pollLoop] using hs
  | succ n ih =>
      intro k s hs
      by_cases hc : clock k < deadline
      · by_cases h1 : conn k = 1
        · exact absurd h1 (h k hc)
        · simpa [pollLoop, hc, h1] using ih (k + 1) (conn k) h1
      · simpa [pollLoop, hc] using hs

/-- If the poll at index `i + m` reports connected, every condition check up
to it happens before the deadline, no earlier poll reports connected, and the
iteration bound covers it, then the loop exits at exactly that poll. -/
lemma pollLoop_exit (conn : Nat → Nat) (clock : Nat → Int) (deadline : Int) :
    ∀ m i fuel s, m + 1 ≤ fuel →
      conn (i + m) = 1 →
      (∀ j, j ≤ m → clock (i + j) < deadline) →
      (∀ j, j < m → conn (i + j) ≠ 1) →
      pollLoop conn clock deadline fuel i s = (1, i + m + 1) := by
  intro m
  induction m with
  | zero =>
      intro i fuel s hfuel hc hck _
      obtain ⟨f, rfl⟩ : ∃ f, fuel = f + 1 := ⟨fuel - 1, by omega⟩
      have h0 : clock i < deadline := by simpa using hck 0 (le_refl 0)
      have hc0 : conn i = 1 := by simpa using hc
      simp [pollLoop, h0, hc0]
  | succ n ih =>
      intro i fuel s hfuel hc hck hprev
      obtain ⟨f, rfl⟩ : ∃ f, fuel = f + 1 := ⟨fuel - 1, by omega⟩
      have h0 : clock i < deadline := by simpa using hck 0 (Nat.zero_le _)
      have hn1 : conn i ≠ 1 := by simpa using hprev 0 (Nat.succ_pos n)
      have hrec := ih (i + 1) f (conn i) (by omega)
        (by rw [show i + 1 + n = i + (n + 1) by omega]; exact hc)
        (fun j hj => by
          rw [show i + 1 + j = i + (j + 1) by omega]
          exact hck (j + 1) (by omega))
        (fun j hj => by
          rw [show i + 1 + j = i + (j + 1) by omega]
          exact hprev (j + 1) (by omega))
      rw [show pollLoop conn clock deadline (f + 1) i s =
          pollLoop conn clock deadline f (i + 1) (conn i) by
        simp [pollLoop, h0, hn1]]
      rw [hrec]
      simp [Prod.mk.injEq]
      omega

/-- With a strictly increasing integer-valued clock, the reading at check `j`
is at least the initial reading plus `j`. -/
lemma clock_lower (clock : Nat → Int) (h : StrictMono clock) :
    ∀ j : Nat, clock 0 + j ≤ clock j := by
  intro j
  induction j with
  | zero => simp
  | succ n ih =>
      have hstep : clock n < clock (n + 1) := h (Nat.lt_succ_self n)
      push_cast
      push_cast at ih
      omega

/-- `countP` over a replicated event is zero when the predicate rejects it. -/
lemma countP_replicate_false (p : Ev → Bool) (n : Nat) (x : Ev)
    (hx : p x = false) : List.countP p (List.replicate n x) = 0 := by
  induction n with
  | zero => rfl
  | succ m ih => simp [List.replicate_succ, List.countP_cons, hx, ih]

/-- `countP` over a replicated event is the length when the predicate accepts
it. -/
lemma countP_replicate_true (p : Ev → Bool) (n : Nat) (x : Ev)
    (hx : p x = true) : List.countP p (List.replicate n x) = n := by
  induction n with
  | zero => rfl
  | succ m ih => simp [List.replicate_succ, List.countP_cons, hx, ih]

/-- Branch lemma: when the connection status before the `try` block is not 1,
the constructor's trace is the open call, the polls, and a single close, and
it raises the bare `Exception`. -/
lemma initRun_not_connected (e : InitEnv) (h : (connStatus e).1 ≠ 1) :
    initRun e =
      (Ev.vcall (.dcdcOpenDeviceByCnt e.devcount (e.timer * 1000)) ::
        List.replicate (connStatus e).2 (Ev.vcall .dcdcGetConnected) ++
        [Ev.vcall .dcdcCloseDevice], .error .exception) := by
  unfold initRun
  simp [h]

/-- Branch lemma: when the connection status is 1 and the device-path decode
succeeds, the constructor returns normally after reading the path and
sleeping one refresh interval. -/
lemma initRun_connected_ok (e : InitEnv) (h1 : (connStatus e).1 = 1)
    (h2 : e.decodeErr = Option.none) :
    initRun e =
      (Ev.vcall (.dcdcOpenDeviceByCnt e.devcount (e.timer * 1000)) ::
        List.replicate (connStatus e).2 (Ev.vcall .dcdcGetConnected) ++
        [Ev.vcall (.dcdcGetDevicePath 0), Ev.sleepFor e.timer], .ok ()) := by
  unfold initRun
  simp [h1, h2]

/-- Branch lemma: when the connection status is 1 but the device-path decode
raises `exc`, the constructor closes the device once and re-raises `exc`. -/
lemma initRun_connected_err (e : InitEnv) (exc : PyExc)
    (h1 : (connStatus e).1 = 1) (h2 : e.decodeErr = some exc) :
    initRun e =
      (Ev.vcall (.dcdcOpenDeviceByCnt e.devcount (e.timer * 1000)) ::
        List.replicate (connStatus e).2 (Ev.vcall .dcdcGetConnected) ++
        [Ev.vcall (.dcdcGetDevicePath 0), Ev.vcall .dcdcCloseDevice],
        .error exc) := by
  unfold initRun
  simp [h1, h2]

/-- A normal constructor return forces connection status 1 and a successful
device-path decode. -/
lemma initRun_ok_cases (e : InitEnv) (hok : (initRun e).2 = .ok ()) :
    (connStatus e).1 = 1 ∧ e.decodeErr = Option.none := by
  by_cases h1 : (connStatus e).1 = 1
  · cases hd : e.decodeErr with
    | none => exact ⟨h1, rfl⟩
    | some exc =>
        rw [initRun_connected_err e exc h1 hd] at hok
        simp at hok
  · rw [initRun_not_connected e h1] at hok
    simp at hok

/-- When the open call returns 0 and no poll made before the deadline reports
connected, the status before the `try` block is not 1. -/
lemma connStatus_ne_one (e : InitEnv) (hopen : e.openResult = 0)
    (hnoconn : ∀ k, e.clock k < e.t0 + e.connectiontimeout → e.conn k ≠ 1) :
    (connStatus e).1 ≠ 1 := by
  simp [connStatus, hopen]
  exact pollLoop_ne_one e.conn e.clock (e.t0 + e.connectiontimeout) hnoconn
    (e.connectiontimeout.toNat + 1) 0 0 (by decide)

/-- The last element of `a :: (l ++ [b, c])` is `c`. -/
lemma getLast_cons_append_pair (a b c : Ev) (l : List Ev) :
    (a :: (l ++ [b, c])).getLast? = some c := by
  rw [show a :: (l ++ [b, c]) = (a :: (l ++ [b])) ++ [c] by simp]
  exact List.getLast?_concat _

/-- C1: if the initial open call returns 0 and no connection-status poll
returns 1 before the configured connection timeout elapses, the constructor
raises, and `dcdcCloseDevice` is called exactly once before the error
propagates. -/
theorem C1_timeout_raises_and_closes_once (e : InitEnv)
    (hopen : e.openResult = 0)
    (hnoconn : ∀ k, e.clock k < e.t0 + e.connectiontimeout → e.conn k ≠ 1) :
    (initRun e).2 = Except.error PyExc.exception ∧
      countClose (initRun e).1 = 1 := by
  rw [initRun_not_connected e (connStatus_ne_one e hopen hnoconn)]
  refine ⟨rfl, ?_⟩
  simp [countClose, List.countP_cons, List.countP_append,
    countP_replicate_false, isCloseDevice]

/-- Witness for C1 at the concrete environment `envTimeout`. -/
theorem C1_witness :
    (initRun envTimeout).2 = Except.error PyExc.exception ∧
      countClose (initRun envTimeout).1 = 1 :=
  C1_timeout_raises_and_closes_once envTimeout rfl
    (fun _ _ => by show (0 : Nat) ≠ 1; decide)

/-- C2 counterexample: in the concrete timeout run `envTimeout`, the failure
is surfaced as `PyExc.exception`, which models Python's bare built-in
`Exception` raised with no arguments (source line 85: `raise Exception`).
The surfaced error therefore is the generic exception type itself, not a
value of a dedicated connection-failure type distinguishable from a generic
error, refuting the claim as stated. -/
theorem C2_counterexample :
    (initRun envTimeout).2 = Except.error PyExc.exception := rfl

/-- C2 (amended): when construction fails because no connection is
established within the timeout, the failure is surfaced to the caller as the
bare generic built-in `Exception` (raised with no message), not as a
dedicated connection-failure type. -/
theorem C2_amended_generic_exception (e : InitEnv)
    (hopen : e.openResult = 0)
    (hnoconn : ∀ k, e.clock k < e.t0 + e.connectiontimeout → e.conn k ≠ 1) :
    (initRun e).2 = Except.error PyExc.exception := by
  rw [initRun_not_connected e (connStatus_ne_one e hopen hnoconn)]

/-- Witness for the amended C2 at the concrete environment `envTimeout`. -/
theorem C2_witness :
    (initRun envTimeout).2 = Except.error PyExc.exception :=
  C2_amended_generic_exception envTimeout rfl
    (fun _ _ => by show (0 : Nat) ≠ 1; decide)

/-- C3: if the initial open call returns 1, the polling loop is never
entered (`dcdcGetConnected` is never called) and construction succeeds. -/
theorem C3_immediate_open_skips_polling (e : InitEnv)
    (hopen : e.openResult = 1) (hdec : e.decodeErr = Option.none) :
    (initRun e).2 = .ok () ∧ countGetConnected (initRun e).1 = 0 := by
  have hcs : connStatus e = (1, 0) := by simp [connStatus, hopen]
  rw [initRun_connected_ok e (by rw [hcs]) hdec, hcs]
  refine ⟨rfl, ?_⟩
  simp [countGetConnected, List.countP_cons, List.countP_append,
    isGetConnected]

/-- Witness for C3 at the concrete environment `envOpen`. -/
theorem C3_witness :
    (initRun envOpen).2 = .ok () ∧ countGetConnected (initRun envOpen).1 = 0 :=
  C3_immediate_open_skips_polling envOpen rfl rfl

/-- C4: if the initial open call returns 0 but the poll at index `k` returns
1, every condition check up to it happening before the configured deadline
and no earlier poll returning 1, then the loop exits at that poll (exactly
`k + 1` polls are made) and construction succeeds without raising.  The
clock hypotheses say the `monotonic()` readings strictly increase and start
no earlier than the reading used to compute the deadline. -/
theorem C4_retry_succeeds_at_first_connected_poll (e : InitEnv) (k : Nat)
    (hopen : e.openResult = 0) (hdec : e.decodeErr = Option.none)
    (hmono : StrictMono e.clock) (ht0 : e.t0 ≤ e.clock 0)
    (hk : e.conn k = 1)
    (hbefore : ∀ j, j ≤ k → e.clock j < e.t0 + e.connectiontimeout)
    (hprev : ∀ j, j < k → e.conn j ≠ 1) :
    (initRun e).2 = .ok () ∧ countGetConnected (initRun e).1 = k + 1 := by
  have hlow := clock_lower e.clock hmono k
  have hkc : e.clock k < e.t0 + e.connectiontimeout := hbefore k (le_refl k)
  have hfuel : k + 1 ≤ e.connectiontimeout.toNat + 1 := by omega
  have hcs : connStatus e = (1, k + 1) := by
    have hloop := pollLoop_exit e.conn e.clock (e.t0 + e.connectiontimeout) k 0
      (e.connectiontimeout.toNat + 1) 0 hfuel
      (by simpa using hk)
      (fun j hj => by simpa using hbefore j hj)
      (fun j hj => by simpa using hprev j hj)
    simp [connStatus, hopen]
    rw [hloop]
    simp
  rw [initRun_connected_ok e (by rw [hcs]) hdec, hcs]
  refine ⟨rfl, ?_⟩
  simp [countGetConnected, List.countP_cons, List.countP_append,
    countP_replicate_true, isGetConnected]

/-- Witness for C4 at the concrete environment `envRetry`, where the poll at
index 2 reports connected. -/
theorem C4_witness :
    (initRun envRetry).2 = .ok () ∧
      countGetConnected (initRun envRetry).1 = 3 :=
  C4_retry_succeeds_at_first_connected_poll envRetry 2 rfl rfl
    (fun a b h => by show (a : Int) < (b : Int); exact_mod_cast h)
    (by decide) rfl (by decide) (by decide)

/-- C5: `GetVersion` returns the decimal rendering of the major version, a
dot, and the decimal rendering of the minor version; in particular major 2
and minor 7 yield the string "2.7". -/
theorem C5_GetVersion_decimal_composition (d : Dll) :
    (methodRun d .GetVersion).2 =
      PyVal.str (Nat.repr d.dcdcGetVersionMajor ++ "." ++
        Nat.repr d.dcdcGetVersionMinor) ∧
    (d.dcdcGetVersionMajor = 2 → d.dcdcGetVersionMinor = 7 →
      (methodRun d .GetVersion).2 = PyVal.str "2.7") := by
  have hmain : (methodRun d .GetVersion).2 =
      PyVal.str (Nat.repr d.dcdcGetVersionMajor ++ "." ++
        Nat.repr d.dcdcGetVersionMinor) := rfl
  refine ⟨hmain, fun h2 h7 => ?_⟩
  rw [hmain, h2, h7]
  decide

/-- Witness for C5 at the concrete stub `dll27` (major 2, minor 7). -/
theorem C5_witness : (methodRun dll27 .GetVersion).2 = PyVal.str "2.7" :=
  (C5_GetVersion_decimal_composition dll27).2 rfl rfl

/-- C6: every successful construction ends with a sleep of one full
refresh-timer interval (`timer` seconds, matching the `timer * 1000` ms
refresh period handed to the open call, which is the first event): the
sleep is the last event before the constructor returns, so the caller
cannot invoke anything earlier than one refresh interval after a
successful open. -/
theorem C6_success_sleeps_one_refresh_interval (e : InitEnv)
    (hok : (initRun e).2 = .ok ()) :
    (initRun e).1.getLast? = some (Ev.sleepFor e.timer) ∧
    (initRun e).1.head? =
      some (Ev.vcall (.dcdcOpenDeviceByCnt e.devcount (e.timer * 1000))) := by
  obtain ⟨h1, h2⟩ := initRun_ok_cases e hok
  rw [initRun_connected_ok e h1 h2]
  exact ⟨getLast_cons_append_pair _ _ _ _, rfl⟩

/-- Witness for C6 at the concrete environment `envOpen`. -/
theorem C6_witness :
    (initRun envOpen).1.getLast? = some (Ev.sleepFor 1) ∧
    (initRun envOpen).1.head? =
      some (Ev.vcall (.dcdcOpenDeviceByCnt 1 1000)) :=
  C6_success_sleeps_one_refresh_interval envOpen rfl

/-- C7: every exposed operation other than the constructor and `GetVersion`
is a direct pass-through: it makes exactly one call to the correspondingly
named vendor function with the same arguments and returns that call's result
unchanged. -/
theorem C7_pass_through (d : Dll) (m : Method) (hm : m ≠ Method.GetVersion) :
    methodRun d m =
      ([Ev.vcall (vendorCallOfMethod m)],
        vendorReturn d (vendorCallOfMethod m)) := by
  cases m <;> first | rfl | exact absurd rfl hm

/-- Witness for C7 at the concrete stub `dllArb` and the method `GetVin`. -/
theorem C7_witness :
    methodRun dllArb .GetVin =
      ([Ev.vcall (vendorCallOfMethod .GetVin)],
        vendorReturn dllArb (vendorCallOfMethod .GetVin)) :=
  C7_pass_through dllArb .GetVin (by decide)

/-- C8: for every session (successful construction), calling
`SaveFlashValues` without any prior `SetVariableData` call performs zero
variable writes: neither the constructor's trace nor the save call contains
a `dcdcSetVariableData` call. -/
theorem C8_save_without_set_issues_no_writes (e : InitEnv) (d : Dll)
    (hok : (initRun e).2 = .ok ()) :
    countSetVariableData
      ((initRun e).1 ++ (methodRun d .SaveFlashValues).1) = 0 := by
  obtain ⟨h1, h2⟩ := initRun_ok_cases e hok
  rw [initRun_connected_ok e h1 h2]
  simp [countSetVariableData, methodRun, List.countP_append,
    List.countP_cons, countP_replicate_false, isSetVariableData]

/-- Witness for C8 at the concrete environment `envOpen` and stub `dllArb`. -/
theorem C8_witness :
    countSetVariableData
      ((initRun envOpen).1 ++ (methodRun dllArb .SaveFlashValues).1) = 0 :=
  C8_save_without_set_issues_no_writes envOpen dllArb rfl

/-- C9: cleanup on construction failure is not limited to the timeout case:
whenever the post-connect block is reached (connection status 1) and any
exception is raised in it (here: by the UTF-8 decode of the device path),
the constructor calls `dcdcCloseDevice` exactly once and re-raises that same
exception. -/
theorem C9_postconnect_exception_closes_once_and_reraises (e : InitEnv)
    (exc : PyExc) (hcon : (connStatus e).1 = 1)
    (hdec : e.decodeErr = some exc) :
    (initRun e).2 = Except.error exc ∧ countClose (initRun e).1 = 1 := by
  rw [initRun_connected_err e exc hcon hdec]
  refine ⟨rfl, ?_⟩
  simp [countClose, List.countP_cons, List.countP_append,
    countP_replicate_false, isCloseDevice]

/-- Witness for C9 at the concrete environment `envDecodeFail`. -/
theorem C9_witness :
    (initRun envDecodeFail).2 = Except.error PyExc.unicodeDecodeError ∧
      countClose (initRun envDecodeFail).1 = 1 :=
  C9_postconnect_exception_closes_once_and_reraises envDecodeFail
    PyExc.unicodeDecodeError rfl rfl

/-- C10: with a connection timeout at most zero and an open call returning 0,
the loop body never executes (`dcdcGetConnected` is never called) and
construction fails immediately, with the device closed (exactly once) before
the error propagates.  The clock hypothesis says the reading at the first
condition check is no earlier than the reading used to compute the
deadline (the clock is monotonic). -/
theorem C10_nonpositive_timeout_skips_loop_and_fails (e : InitEnv)
    (hopen : e.openResult = 0) (hcto : e.connectiontimeout ≤ 0)
    (ht0 : e.t0 ≤ e.clock 0) :
    (initRun e).2 = Except.error PyExc.exception ∧
      countGetConnected (initRun e).1 = 0 ∧
      countClose (initRun e).1 = 1 := by
  have hnc : ¬ e.clock 0 < e.t0 + e.connectiontimeout := by omega
  have hcs : connStatus e = (0, 0) := by
    simp [connStatus, hopen, pollLoop, hnc]
  rw [initRun_not_connected e (by rw [hcs]; decide), hcs]
  refine ⟨rfl, ?_, ?_⟩
  · simp [countGetConnected, List.countP_cons, List.countP_append,
      isGetConnected]
  · simp [countClose, List.countP_cons, List.countP_append, isCloseDevice]

/-- Witness for C10 at the concrete environment `envNegTimeout`. -/
theorem C10_witness :
    (initRun envNegTimeout).2 = Except.error PyExc.exception ∧
      countGetConnected (initRun envNegTimeout).1 = 0 ∧
      countClose (initRun envNegTimeout).1 = 1 :=
  C10_nonpositive_timeout_skips_loop_and_fails envNegTimeout rfl
    (by decide) (by decide)

end MiniBoxDCDC
